import Mathlib

/-
  Verification of the Recommendations microservice
  (Flask + Flask-RESTX + SQLAlchemy CRUD service).

  Shallow embedding of:
    - src/service/models.py : enumerations, the Recommendation model class,
      its serialize/deserialize and the create persistence operation;
    - src/service/routes.py : the route handlers (list with filters and sort,
      update, delete, like/dislike, activate).

  The database session is modelled as an explicit list of records threaded
  through each handler; fallible operations return Except values carrying
  the HTTP status code and message the handler would produce.
-/

namespace RecSvc

/-- Enumeration of possible recommendation types (models.py, RecommendationType). -/
inductive RecommendationType where
  | cross_sell
  | up_sell
  | accessory
  | trending
deriving DecidableEq

/-- The string token of a RecommendationType member (its `.value` in models.py). -/
def RecommendationType.value : RecommendationType → String
  | .cross_sell => "cross_sell"
  | .up_sell => "up_sell"
  | .accessory => "accessory"
  | .trending => "trending"

/-- Python `RecommendationType(token)`: look a token up by enum value;
`none` models the `ValueError` raised for a token outside the enumeration. -/
def RecommendationType.parse (s : String) : Option RecommendationType :=
  if s = "cross_sell" then some .cross_sell
  else if s = "up_sell" then some .up_sell
  else if s = "accessory" then some .accessory
  else if s = "trending" then some .trending
  else none

/-- Enumeration of possible recommendation statuses (models.py, RecommendationStatus). -/
inductive RecommendationStatus where
  | active
  | inactive
  | draft
  | deleted
deriving DecidableEq

/-- The string token of a RecommendationStatus member (its `.value` in models.py). -/
def RecommendationStatus.value : RecommendationStatus → String
  | .active => "active"
  | .inactive => "inactive"
  | .draft => "draft"
  | .deleted => "deleted"

/-- Python `RecommendationStatus(token)`: look a token up by enum value;
`none` models the `ValueError` raised for a token outside the enumeration. -/
def RecommendationStatus.parse (s : String) : Option RecommendationStatus :=
  if s = "active" then some .active
  else if s = "inactive" then some .inactive
  else if s = "draft" then some .draft
  else if s = "deleted" then some .deleted
  else none

/-- A JSON-like value as it appears in request/response dictionaries.
Decimal column values are carried as rationals and datetime values as
abstract timestamps; nothing in the verified properties depends on their
concrete textual rendering. -/
inductive JValue where
  | jnull
  | jstr (s : String)
  | jint (n : Int)
  | jrat (q : Rat)
  | jtime (t : Nat)
deriving DecidableEq

/-- A JSON object (Python dict) as an association list of key/value pairs. -/
def Payload := List (String × JValue)

/-- Python `data[key]` lookup: `some v` when the key is present,
`none` models the `KeyError` raised when it is absent. -/
def Payload.get : Payload → String → Option JValue
  | [], _ => none
  | (k, v) :: rest, key => if k = key then some v else Payload.get rest key

/-- The Recommendation model class of src/service/models.py (its table schema).
Every column of an in-memory instance starts out unset (`none`), exactly as a
freshly constructed `Recommendation()` has every attribute `None`; column
defaults in models.py apply only at database insert time. -/
structure ModelRec where
  id : Option Int := none
  base_product_id : Option Int := none
  recommended_product_id : Option Int := none
  weighted_score : Option Rat := none
  rationale : Option String := none
  status : Option RecommendationStatus := none
  recommendation_type : Option RecommendationType := none
  recommendation_id : Option Int := none
  valid_from : Option Nat := none
  valid_to : Option Nat := none
  name : Option JValue := none
deriving DecidableEq

/-- Render an optional integer column as JSON (`None` becomes null). -/
def jOptInt : Option Int → JValue
  | some n => .jint n
  | none => .jnull

/-- Recommendation.serialize of src/service/models.py: the exact ten keys it
emits, in order. `recommendation_type`/`status` render as their enum value
token when set, else null; `weighted_score` goes through
`float(x) if x else None`, so a zero score (falsy in Python) also renders as
null; datetimes render when set, else null. The `name` column is NOT emitted. -/
def ModelRec.serialize (r : ModelRec) : Payload :=
  [ ("id", jOptInt r.id),
    ("base_product_id", jOptInt r.base_product_id),
    ("recommended_product_id", jOptInt r.recommended_product_id),
    ("recommendation_type",
      match r.recommendation_type with
      | some t => .jstr t.value
      | none => .jnull),
    ("weighted_score",
      match r.weighted_score with
      | some q => if q = 0 then .jnull else .jrat q
      | none => .jnull),
    ("rationale",
      match r.rationale with
      | some s => .jstr s
      | none => .jnull),
    ("status",
      match r.status with
      | some st => .jstr st.value
      | none => .jnull),
    ("recommendation_id", jOptInt r.recommendation_id),
    ("valid_from",
      match r.valid_from with
      | some t => .jtime t
      | none => .jnull),
    ("valid_to",
      match r.valid_to with
      | some t => .jtime t
      | none => .jnull) ]

/-- Recommendation.deserialize of src/service/models.py: the body of the
method is a single `self.name = data["name"]` inside try/except; a missing
`name` key raises `DataValidationError("Invalid YourResourceModel: missing name")`
and any other key of `data` is ignored. The error string is the carried message. -/
def ModelRec.deserialize (r : ModelRec) (data : Payload) : Except String ModelRec :=
  match data.get "name" with
  | some v => .ok { r with name := some v }
  | none => .error ("Invalid YourResourceModel: missing " ++ "name")

/-- Recommendation.create of src/service/models.py. It first executes
`self.id = None` unconditionally, then adds the object to the session and
commits; the add/commit pair is abstracted as `ins`, which either returns the
primary key the database assigns or fails with the underlying exception's
message. On failure the session is rolled back and a `DataValidationError`
carrying the cause is raised; the error value also carries the in-memory
record as the caller observes it after the failed call. -/
def ModelRec.create (ins : ModelRec → Except String Int) (r : ModelRec) :
    Except (String × ModelRec) ModelRec :=
  let r1 := { r with id := none }
  match ins r1 with
  | .ok newId => .ok { r1 with id := some newId }
  | .error e => .error (e, r1)

/-- Modelled from the spec: the Recommendation entity as the route handlers of
src/service/routes.py use it. The model class variant that matches routes.py —
with `likes`, `merchant_send_count`, `created_at` and `last_sent_at` columns
and a full five-field deserialize, the one the repository's own tests exercise —
is not under src/ (src's models.py is a divergent schema variant), so the
field set follows §3 of the spec: persisted rows have an assigned `id`, a
`name`, the product pair, enum-valued `recommendation_type` and `status`, and
a `likes` counter. `merchant_send_count` and `created_at` are carried for the
send action and the created_at sort key. -/
structure RecEntity where
  id : Int
  name : String
  base_product_id : Int
  recommended_product_id : Int
  recommendation_type : RecommendationType
  status : RecommendationStatus
  likes : Int
  merchant_send_count : Int
  created_at : Nat
deriving DecidableEq

/-- The stored table, as the explicit state threaded through each handler. -/
abbrev Db := List RecEntity

/-- Recommendation.find(id): primary-key lookup, `none` for not found. -/
def findRec (db : Db) (rid : Int) : Option RecEntity :=
  db.find? (fun r => decide (r.id = rid))

/-- Committing a mutated record back to the store (`recommendation.update()`):
the row whose primary key matches is replaced by the new record. -/
def commitRec (db : Db) (rid : Int) (r2 : RecEntity) : Db :=
  db.map (fun x => if x.id = rid then r2 else x)

/-- The not-found message every handler aborts with. -/
def notFoundMsg : String := "Recommendation Not Found"

/-- The conflict message of the like/dislike guard, with the id interpolated. -/
def conflictMsg (rid : Int) : String :=
  "Recommendation with id \x27" ++ toString rid ++ "\x27 is not active."

/-- LikeResource.put of src/service/routes.py (PUT /recommendations/{id}/like):
404 when the id is absent; 409 when the record's status is not ACTIVE (the
abort happens before any mutation, so the store is returned unchanged);
otherwise `likes` is incremented, the record committed and returned with 200
(`ok` carries the record whose serialization is the response body). -/
def likeRoute (db : Db) (rid : Int) : Except (Nat × String) RecEntity × Db :=
  match findRec db rid with
  | none => (.error (404, notFoundMsg), db)
  | some r =>
    if r.status ≠ RecommendationStatus.active then
      (.error (409, conflictMsg rid), db)
    else
      let r2 := { r with likes := r.likes + 1 }
      (.ok r2, commitRec db rid r2)

/-- LikeResource.delete of src/service/routes.py (DELETE /recommendations/{id}/like):
404 when the id is absent; 409 when the record's status is not ACTIVE; when
active, `likes` is decremented and committed only if it is strictly positive
(`if recommendation.likes > 0`), otherwise nothing is written; either way the
record is returned with 200. -/
def dislikeRoute (db : Db) (rid : Int) : Except (Nat × String) RecEntity × Db :=
  match findRec db rid with
  | none => (.error (404, notFoundMsg), db)
  | some r =>
    if r.status ≠ RecommendationStatus.active then
      (.error (409, conflictMsg rid), db)
    else
      if r.likes > 0 then
        let r2 := { r with likes := r.likes - 1 }
        (.ok r2, commitRec db rid r2)
      else
        (.ok r, db)

/-- Iterating the dislike action: the store after `k` successive dislike
requests for the same id. -/
def dislikeN : Nat → Db → Int → Db
  | 0, db, _ => db
  | k + 1, db, rid => dislikeN k (dislikeRoute db rid).2 rid

/-- ActivateResource.put of src/service/routes.py (PUT /recommendations/{id}/activate):
404 when the id is absent; when the status is not already ACTIVE it is set to
ACTIVE and committed, otherwise nothing is written; either way the record is
returned with 200. -/
def activateRoute (db : Db) (rid : Int) : Except (Nat × String) RecEntity × Db :=
  match findRec db rid with
  | none => (.error (404, notFoundMsg), db)
  | some r =>
    if r.status ≠ RecommendationStatus.active then
      let r2 := { r with status := RecommendationStatus.active }
      (.ok r2, commitRec db rid r2)
    else
      (.ok r, db)

/-- RecommendationResource.delete of src/service/routes.py
(DELETE /recommendations/{id}): when the id is found that row is deleted,
otherwise nothing happens; the response is 204 with an empty body in both
cases — there is no 404 branch. -/
def deleteRoute (db : Db) (rid : Int) : (Nat × String) × Db :=
  match findRec db rid with
  | none => ((204, ""), db)
  | some _ => ((204, ""), List.eraseP (fun x => decide (x.id = rid)) db)

/-- The sort whitelist of RecommendationCollection.get (`valid_sort_fields`). -/
inductive SortKey where
  | created_at_asc
  | created_at_desc
  | name_asc
  | name_desc
  | id_asc
  | id_desc
deriving DecidableEq

/-- Lookup of a sort token in `valid_sort_fields`; `none` models a token
outside the whitelist. -/
def sortKeyOfString (s : String) : Option SortKey :=
  if s = "created_at_asc" then some .created_at_asc
  else if s = "created_at_desc" then some .created_at_desc
  else if s = "name_asc" then some .name_asc
  else if s = "name_desc" then some .name_desc
  else if s = "id_asc" then some .id_asc
  else if s = "id_desc" then some .id_desc
  else none

/-- Ascending-by-id ordering, the default `Recommendation.id.asc()`. -/
def byIdAsc (a b : RecEntity) : Prop := a.id ≤ b.id

instance : DecidableRel byIdAsc :=
  fun a b => inferInstanceAs (Decidable (a.id ≤ b.id))

instance : IsTotal RecEntity byIdAsc :=
  ⟨fun a b => Int.le_total a.id b.id⟩

instance : IsTrans RecEntity byIdAsc :=
  ⟨fun _ _ _ h1 h2 => le_trans h1 h2⟩

/-- `query.order_by(clause)`: the single ordering clause applied to the rows. -/
def orderBy : SortKey → List RecEntity → List RecEntity
  | .created_at_asc, l => List.insertionSort (fun a b => a.created_at ≤ b.created_at) l
  | .created_at_desc, l => List.insertionSort (fun a b => b.created_at ≤ a.created_at) l
  | .name_asc, l => List.insertionSort (fun a b => a.name ≤ b.name) l
  | .name_desc, l => List.insertionSort (fun a b => b.name ≤ a.name) l
  | .id_asc, l => List.insertionSort byIdAsc l
  | .id_desc, l => List.insertionSort (fun a b => b.id ≤ a.id) l

/-- The 400 message of an out-of-whitelist sort token, with
`', '.join(valid_sort_fields.keys())` interpolated in dict insertion order. -/
def sortErrMsg : String :=
  "Invalid sort parameter. Valid options: created_at_asc, created_at_desc, " ++
    "name_asc, name_desc, id_asc, id_desc"

/-- RecommendationCollection.get of src/service/routes.py
(GET /recommendations): the query-composer pipeline. `product_a_id` wins over
`base_product_id` when both are given (first non-null); a present and
non-empty `relationship_type`/`status` token is parsed against its
enumeration and an unparseable token is silently ignored (Python truthiness:
`if relationship_type:` also skips the empty string); a present and non-empty
`sort` token outside the whitelist aborts with 400, otherwise its ordering is
applied; with no (or an empty) sort token the rows are ordered by id
ascending. -/
def listRoute (db : Db) (product_a_id base_product_id : Option Int)
    (relationship_type status_q sort : Option String) :
    Except (Nat × String) (List RecEntity) :=
  let filter_id := match product_a_id with
    | some v => some v
    | none => base_product_id
  let q1 := match filter_id with
    | some v => db.filter (fun r => decide (r.base_product_id = v))
    | none => db
  let q2 := match relationship_type with
    | none => q1
    | some s =>
      if s = "" then q1
      else match RecommendationType.parse s with
        | some t => q1.filter (fun r => decide (r.recommendation_type = t))
        | none => q1
  let q3 := match status_q with
    | none => q2
    | some s =>
      if s = "" then q2
      else match RecommendationStatus.parse s with
        | some st => q2.filter (fun r => decide (r.status = st))
        | none => q2
  match sort with
  | none => .ok (orderBy .id_asc q3)
  | some s =>
    if s = "" then .ok (orderBy .id_asc q3)
    else match sortKeyOfString s with
      | some k => .ok (orderBy k q3)
      | none => .error (400, sortErrMsg)

/-- Recommendation.find for the src model class (primary-key lookup over the
stored rows of the models.py schema). -/
def mfind (db : List ModelRec) (rid : Int) : Option ModelRec :=
  db.find? (fun r => decide (r.id = some rid))

/-- Committing a mutated src-model record back to the store
(`recommendation.update()`): the row whose primary key matches is replaced. -/
def mcommit (db : List ModelRec) (rid : Int) (r2 : ModelRec) : List ModelRec :=
  db.map (fun x => if x.id = some rid then r2 else x)

/-- RecommendationResource.put of src/service/routes.py
(PUT /recommendations/{id}) over the src model class: 404 when the id is
absent; otherwise the found record is deserialized from the request body
(which, with src's Recommendation.deserialize, assigns only `name`), its id
forced back to the path id, committed, and returned with 200. A
DataValidationError raised by deserialize is mapped to 400 (spec §7: the
route layer maps DataValidationError to 400). -/
def updateRoute (db : List ModelRec) (rid : Int) (data : Payload) :
    Except (Nat × String) ModelRec × List ModelRec :=
  match mfind db rid with
  | none => (.error (404, notFoundMsg), db)
  | some r =>
    match r.deserialize data with
    | .error e => (.error (400, e), db)
    | .ok r1 =>
      let r2 := { r1 with id := some rid }
      (.ok r2, mcommit db rid r2)

/- Concrete inputs used by the closed evaluation theorems and witnesses. -/

/-- A freshly constructed `Recommendation()` (every attribute unset). -/
def freshRec : ModelRec := {}

/-- A payload containing `name` but missing the required key
`recommendation_type` (the other three of the five required keys present). -/
def payloadMissingType : Payload :=
  [ ("name", .jstr "Cross-sell Combo"),
    ("base_product_id", .jint 1),
    ("recommended_product_id", .jint 2),
    ("status", .jstr "active") ]

/-- A valid payload with all five required keys present. -/
def payloadFull : Payload :=
  [ ("name", .jstr "Cross-sell Combo"),
    ("recommendation_type", .jstr "cross_sell"),
    ("base_product_id", .jint 1),
    ("recommended_product_id", .jint 2),
    ("status", .jstr "active") ]

/-- The record produced by deserializing `payloadFull` into a fresh record
under src's deserialize: only `name` is populated. -/
def recFromFull : ModelRec :=
  { freshRec with name := some (.jstr "Cross-sell Combo") }

/-- A persisted src-model row with id 1 and all five core fields set. -/
def storedRec : ModelRec :=
  { id := some 1, base_product_id := some 1, recommended_product_id := some 2,
    status := some .active, recommendation_type := some .cross_sell,
    recommendation_id := some 1001, name := some (.jstr "A") }

/-- An update body that changes every one of the five core fields. -/
def updateBody : Payload :=
  [ ("name", .jstr "B"),
    ("recommendation_type", .jstr "up_sell"),
    ("base_product_id", .jint 9),
    ("recommended_product_id", .jint 8),
    ("status", .jstr "inactive") ]

/-- An insert that fails with cause "boom" (a constraint violation, say). -/
def insFailBoom : ModelRec → Except String Int := fun _ => .error "boom"

/-- A src-model record whose caller supplied id 7 before calling create. -/
def recWithId7 : ModelRec := { storedRec with id := some 7 }

/-- A persisted route-layer entity with status active and 2 likes. -/
def recActive2 : RecEntity :=
  { id := 1, name := "A", base_product_id := 1, recommended_product_id := 2,
    recommendation_type := .cross_sell, status := .active, likes := 2,
    merchant_send_count := 0, created_at := 10 }

/-- A persisted route-layer entity with status active and 0 likes. -/
def recActive0 : RecEntity :=
  { recActive2 with id := 3, name := "C", likes := 0 }

/-- A persisted route-layer entity with status draft (not active). -/
def recDraft : RecEntity :=
  { recActive2 with id := 2, name := "B", status := .draft, created_at := 5 }

/- Helper lemmas about the store. -/

/-- A record found by primary key carries that key. -/
theorem findRec_id (db : Db) (rid : Int) (r : RecEntity)
    (hf : findRec db rid = some r) : r.id = rid := by
  have h : List.find? (fun x => decide (x.id = rid)) db = some r := hf
  simpa using List.find?_some h

/-- After committing a replacement row that carries the looked-up key, the
lookup returns the replacement. -/
theorem findRec_commitRec (db : Db) (rid : Int) (r r2 : RecEntity)
    (hf : findRec db rid = some r) (h2 : r2.id = rid) :
    findRec (commitRec db rid r2) rid = some r2 := by
  induction db with
  | nil => simp [findRec, List.find?] at hf
  | cons x xs ih =>
    unfold findRec commitRec at *
    simp only [List.map_cons]
    by_cases hx : x.id = rid
    · rw [if_pos hx]
      exact List.find?_cons_of_pos _ (by simp [h2])
    · rw [if_neg hx]
      rw [List.find?_cons_of_neg _ (by simp [hx])]
      rw [List.find?_cons_of_neg _ (by simp [hx])] at hf
      exact ih hf

/-- C5: for every stored record whose status is not active, both the like and
the dislike operation return 409 Conflict with the conflict message and leave
the store (hence the record's likes counter and every other field) unchanged. -/
theorem like_dislike_conflict_on_not_active (db : Db) (rid : Int) (r : RecEntity)
    (hf : findRec db rid = some r)
    (hs : r.status ≠ RecommendationStatus.active) :
    likeRoute db rid = (.error (409, conflictMsg rid), db) ∧
    dislikeRoute db rid = (.error (409, conflictMsg rid), db) := by
  unfold likeRoute dislikeRoute
  rw [hf]
  simp [hs]

/-- C5 witness: the conflict behavior at a concrete draft record. -/
theorem like_dislike_conflict_witness :
    findRec [recDraft] 2 = some recDraft ∧
    recDraft.status ≠ RecommendationStatus.active ∧
    (likeRoute [recDraft] 2 = (.error (409, conflictMsg 2), [recDraft]) ∧
     dislikeRoute [recDraft] 2 = (.error (409, conflictMsg 2), [recDraft])) :=
  ⟨rfl, by decide,
   like_dislike_conflict_on_not_active [recDraft] 2 recDraft rfl (by decide)⟩

/-- The dislike invariant: an active record with a non-negative likes counter
stays present, active and non-negative across one dislike request. -/
theorem dislikeN_invariant (rid : Int) (k : Nat) :
    ∀ (db : Db) (r : RecEntity), findRec db rid = some r →
      r.status = RecommendationStatus.active → 0 ≤ r.likes →
      ∃ r2, findRec (dislikeN k db rid) rid = some r2 ∧
        r2.status = RecommendationStatus.active ∧ 0 ≤ r2.likes := by
  induction k with
  | zero =>
    intro db r hf hs hl
    exact ⟨r, hf, hs, hl⟩
  | succ k ih =>
    intro db r hf hs hl
    have hid := findRec_id db rid r hf
    by_cases hpos : r.likes > 0
    · have h1 : (dislikeRoute db rid).2 =
          commitRec db rid { r with likes := r.likes - 1 } := by
        unfold dislikeRoute
        rw [hf]
        simp [hs, hpos]
      have hf2 : findRec (commitRec db rid { r with likes := r.likes - 1 }) rid =
          some { r with likes := r.likes - 1 } :=
        findRec_commitRec db rid r _ hf (by simp [hid])
      have step := ih (commitRec db rid { r with likes := r.likes - 1 })
        { r with likes := r.likes - 1 } hf2 (by simp [hs]) (by simp; omega)
      show ∃ r2, findRec (dislikeN k (dislikeRoute db rid).2 rid) rid = some r2 ∧ _
      rw [h1]
      exact step
    · have h1 : (dislikeRoute db rid).2 = db := by
        unfold dislikeRoute
        rw [hf]
        simp [hs, hpos]
      have step := ih db r hf hs hl
      show ∃ r2, findRec (dislikeN k (dislikeRoute db rid).2 rid) rid = some r2 ∧ _
      rw [h1]
      exact step

/-- C6: for every stored active record, a dislike at likes 0 responds 200 and
leaves the store untouched; a dislike at likes n greater than 0 stores n - 1;
and starting from a non-negative counter, any number of dislike requests keeps
the stored counter non-negative. -/
theorem dislike_floor_at_zero (db : Db) (rid : Int) (r : RecEntity)
    (hf : findRec db rid = some r)
    (hs : r.status = RecommendationStatus.active) :
    (r.likes = 0 → dislikeRoute db rid = (.ok r, db)) ∧
    (0 < r.likes →
      dislikeRoute db rid =
        (.ok { r with likes := r.likes - 1 },
         commitRec db rid { r with likes := r.likes - 1 }) ∧
      findRec (dislikeRoute db rid).2 rid = some { r with likes := r.likes - 1 }) ∧
    (0 ≤ r.likes → ∀ k, ∃ r2,
      findRec (dislikeN k db rid) rid = some r2 ∧ 0 ≤ r2.likes) := by
  have hid := findRec_id db rid r hf
  refine ⟨?_, ?_, ?_⟩
  · intro h0
    unfold dislikeRoute
    rw [hf]
    simp [hs, h0]
  · intro hpos
    have h1 : dislikeRoute db rid =
        (.ok { r with likes := r.likes - 1 },
         commitRec db rid { r with likes := r.likes - 1 }) := by
      unfold dislikeRoute
      rw [hf]
      simp [hs, hpos]
    refine ⟨h1, ?_⟩
    rw [h1]
    exact findRec_commitRec db rid r _ hf (by simp [hid])
  · intro hl k
    obtain ⟨r2, h2, _, h4⟩ := dislikeN_invariant rid k db r hf hs hl
    exact ⟨r2, h2, h4⟩

/-- C6 witness: the floor behavior at a concrete active record with 2 likes. -/
theorem dislike_floor_witness :
    findRec [recActive2] 1 = some recActive2 ∧
    recActive2.status = RecommendationStatus.active ∧
    ((recActive2.likes = 0 → dislikeRoute [recActive2] 1 = (.ok recActive2, [recActive2])) ∧
     (0 < recActive2.likes →
       dislikeRoute [recActive2] 1 =
         (.ok { recActive2 with likes := recActive2.likes - 1 },
          commitRec [recActive2] 1 { recActive2 with likes := recActive2.likes - 1 }) ∧
       findRec (dislikeRoute [recActive2] 1).2 1 =
         some { recActive2 with likes := recActive2.likes - 1 }) ∧
     (0 ≤ recActive2.likes → ∀ k, ∃ r2,
       findRec (dislikeN k [recActive2] 1) 1 = some r2 ∧ 0 ≤ r2.likes)) :=
  ⟨rfl, rfl, dislike_floor_at_zero [recActive2] 1 recActive2 rfl rfl⟩

/-- C7: activating an existing id twice returns, on the second call, the very
same response and store as the first call; after either call the response is
200 with a record whose status is active, and that record is what the store
holds for the id. -/
theorem activate_idempotent (db : Db) (rid : Int) (r : RecEntity)
    (hf : findRec db rid = some r) :
    activateRoute (activateRoute db rid).2 rid = activateRoute db rid ∧
    ∃ r1, (activateRoute db rid).1 = .ok r1 ∧
      r1.status = RecommendationStatus.active ∧
      findRec (activateRoute db rid).2 rid = some r1 := by
  have hid := findRec_id db rid r hf
  by_cases hs : r.status = RecommendationStatus.active
  · have h1 : activateRoute db rid = (.ok r, db) := by
      unfold activateRoute
      rw [hf]
      simp [hs]
    rw [h1]
    exact ⟨h1, r, rfl, hs, hf⟩
  · have h1 : activateRoute db rid =
        (.ok { r with status := RecommendationStatus.active },
         commitRec db rid { r with status := RecommendationStatus.active }) := by
      unfold activateRoute
      rw [hf]
      simp [hs]
    have hf2 : findRec (commitRec db rid { r with status := RecommendationStatus.active }) rid =
        some { r with status := RecommendationStatus.active } :=
      findRec_commitRec db rid r _ hf (by simp [hid])
    have h2 : activateRoute (commitRec db rid { r with status := RecommendationStatus.active }) rid =
        (.ok { r with status := RecommendationStatus.active },
         commitRec db rid { r with status := RecommendationStatus.active }) := by
      unfold activateRoute
      rw [hf2]
      simp
    rw [h1]
    exact ⟨h2, { r with status := RecommendationStatus.active }, rfl, rfl, hf2⟩

/-- C7 witness: idempotence of activate at a concrete draft record. -/
theorem activate_idempotent_witness :
    findRec [recDraft] 2 = some recDraft ∧
    (activateRoute (activateRoute [recDraft] 2).2 2 = activateRoute [recDraft] 2 ∧
     ∃ r1, (activateRoute [recDraft] 2).1 = .ok r1 ∧
       r1.status = RecommendationStatus.active ∧
       findRec (activateRoute [recDraft] 2).2 2 = some r1) :=
  ⟨rfl, activate_idempotent [recDraft] 2 recDraft rfl⟩

/-- C3: for every stored set of rows, a `relationship_type` or `status` query
token outside its enumeration makes the list operation succeed and return
exactly the result of the unfiltered list operation (the filter is silently
ignored). -/
theorem list_unparseable_filter_ignored (db : Db) (t s : String)
    (ht : RecommendationType.parse t = none)
    (hs : RecommendationStatus.parse s = none) :
    listRoute db none none (some t) none none =
      listRoute db none none none none none ∧
    listRoute db none none none (some s) none =
      listRoute db none none none none none ∧
    ∃ rows, listRoute db none none (some t) none none = .ok rows := by
  have h0 : listRoute db none none none none none = .ok (orderBy .id_asc db) := by
    unfold listRoute
    simp
  have h1 : listRoute db none none (some t) none none = .ok (orderBy .id_asc db) := by
    unfold listRoute
    by_cases h : t = ""
    · simp [h]
    · simp [h, ht]
  have h2 : listRoute db none none none (some s) none = .ok (orderBy .id_asc db) := by
    unfold listRoute
    by_cases h : s = ""
    · simp [h]
    · simp [h, hs]
  exact ⟨h1.trans h0.symm, h2.trans h0.symm, orderBy .id_asc db, h1⟩

/-- C3 witness: a concrete store and the unparseable tokens "bogus" and
"unknown" produce exactly the unfiltered listing. -/
theorem list_unparseable_filter_witness :
    RecommendationType.parse "bogus" = none ∧
    RecommendationStatus.parse "unknown" = none ∧
    (listRoute [recActive2, recDraft] none none (some "bogus") none none =
       listRoute [recActive2, recDraft] none none none none none ∧
     listRoute [recActive2, recDraft] none none none (some "unknown") none =
       listRoute [recActive2, recDraft] none none none none none ∧
     ∃ rows, listRoute [recActive2, recDraft] none none (some "bogus") none none =
       .ok rows) :=
  ⟨rfl, rfl,
   list_unparseable_filter_ignored [recActive2, recDraft] "bogus" "unknown" rfl rfl⟩

/-- C4 counterexample: the empty string is a sort query value outside the
whitelist, yet the list operation does not return 400 for it — Python
truthiness routes it to the default branch, so it answers 200. -/
theorem sort_empty_token_not_rejected :
    sortKeyOfString "" = none ∧
    listRoute [] none none none none (some "") = .ok [] :=
  ⟨rfl, rfl⟩

/-- C4 (amended): every non-empty sort token outside the whitelist is a 400
client error, and with no sort parameter (or an empty one) the returned rows
are a permutation of the stored rows ordered ascending by id. -/
theorem sort_whitelist_and_default_order (db : Db) (s : String)
    (hne : s ≠ "") (hs : sortKeyOfString s = none) :
    listRoute db none none none none (some s) = .error (400, sortErrMsg) ∧
    ∃ rows, listRoute db none none none none none = .ok rows ∧
      rows.Perm db ∧ List.Sorted byIdAsc rows := by
  constructor
  · unfold listRoute
    simp [hne, hs]
  · refine ⟨orderBy .id_asc db, by unfold listRoute; simp, ?_, ?_⟩
    · exact List.perm_insertionSort byIdAsc db
    · exact List.sorted_insertionSort byIdAsc db

/-- C4 witness: the token "bogus" is rejected with 400 on a concrete store
whose default listing comes back ordered by id. -/
theorem sort_whitelist_witness :
    ("bogus" : String) ≠ "" ∧
    sortKeyOfString "bogus" = none ∧
    (listRoute [recDraft, recActive2] none none none none (some "bogus") =
       .error (400, sortErrMsg) ∧
     ∃ rows, listRoute [recDraft, recActive2] none none none none none = .ok rows ∧
       rows.Perm [recDraft, recActive2] ∧ List.Sorted byIdAsc rows) :=
  ⟨by decide, rfl,
   sort_whitelist_and_default_order [recDraft, recActive2] "bogus" (by decide) rfl⟩

/-- C10: the delete operation answers 204 with an empty body for every id,
existing or not — there is no 404 branch — and when no row carries the id the
store is returned unchanged. -/
theorem delete_always_204 (db : Db) (rid : Int) :
    (deleteRoute db rid).1 = (204, "") ∧
    (findRec db rid = none → (deleteRoute db rid).2 = db) := by
  constructor
  · unfold deleteRoute
    cases h : findRec db rid <;> simp
  · intro h
    unfold deleteRoute
    rw [h]

/-- C10 witness: deleting the absent id 99 from a concrete store answers 204
with an empty body and leaves the store unchanged. -/
theorem delete_always_204_witness :
    (deleteRoute [recActive2] 99).1 = (204, "") ∧
    findRec [recActive2] 99 = none ∧
    (deleteRoute [recActive2] 99).2 = [recActive2] :=
  ⟨(delete_always_204 [recActive2] 99).1, rfl,
   (delete_always_204 [recActive2] 99).2 rfl⟩

/-- C1 (code evaluated at the failing input): deserializing a payload that
contains `name` but is missing the required key `recommendation_type`
succeeds instead of failing with an error naming the absent key, and even
deserializing the complete five-key payload populates only `name`, leaving
the other four core fields unset. -/
theorem deserialize_ignores_required_keys :
    freshRec.deserialize payloadMissingType =
      .ok { freshRec with name := some (.jstr "Cross-sell Combo") } ∧
    freshRec.deserialize payloadFull = .ok recFromFull ∧
    recFromFull.recommendation_type = none ∧
    recFromFull.base_product_id = none ∧
    recFromFull.recommended_product_id = none ∧
    recFromFull.status = none :=
  ⟨rfl, rfl, rfl, rfl, rfl, rfl⟩

/-- C2 (code evaluated at the failing input): the serialization of the record
deserialized from a valid full payload carries no `name` key at all, so
deserializing the serialized record fails with the missing-name error — the
round-trip does not restore the five core fields. -/
theorem roundtrip_loses_core_fields :
    freshRec.deserialize payloadFull = .ok recFromFull ∧
    Payload.get recFromFull.serialize "name" = none ∧
    freshRec.deserialize recFromFull.serialize =
      .error "Invalid YourResourceModel: missing name" :=
  ⟨rfl, rfl, rfl⟩

/-- C8 (code evaluated at the failing input): updating the stored record of
id 1 with a body that changes every core field answers 200 but stores a
record in which only `name` changed — `recommendation_type` keeps its old
value cross_sell even though the body carries the parseable value up_sell. -/
theorem update_replaces_only_name :
    updateRoute [storedRec] 1 updateBody =
      (.ok { storedRec with name := some (.jstr "B") },
       [{ storedRec with name := some (.jstr "B") }]) ∧
    ({ storedRec with name := some (.jstr "B") } : ModelRec).recommendation_type =
      some RecommendationType.cross_sell ∧
    Payload.get updateBody "recommendation_type" = some (.jstr "up_sell") ∧
    RecommendationType.parse "up_sell" = some RecommendationType.up_sell :=
  ⟨rfl, rfl, rfl, rfl⟩

/-- C9 counterexample: calling create on a record whose caller supplied id 7,
with an insert that fails, leaves the in-memory id at none — the value the
unconditional reset installed — and not at its value before the call. -/
theorem create_failure_resets_id :
    ModelRec.create insFailBoom recWithId7 =
      .error ("boom", { recWithId7 with id := none }) ∧
    ({ recWithId7 with id := none } : ModelRec).id ≠ recWithId7.id :=
  ⟨rfl, by decide⟩

/-- C9 (amended): create behaves as if the caller-supplied id were already
unassigned (the reset precedes the insert), and on a failing insert it raises
the DataValidationError carrying exactly the underlying cause while the
in-memory id stays at the unassigned value installed by the reset. -/
theorem create_resets_id_and_carries_cause
    (ins : ModelRec → Except String Int) (r : ModelRec) :
    ModelRec.create ins r = ModelRec.create ins { r with id := none } ∧
    (∀ e rmem, ModelRec.create ins r = .error (e, rmem) →
      ins { r with id := none } = .error e ∧ rmem.id = none) := by
  constructor
  · rfl
  · intro e rmem h
    simp only [ModelRec.create] at h
    cases hi : ins { r with id := none } with
    | ok n =>
      rw [hi] at h
      simp at h
    | error e2 =>
      rw [hi] at h
      simp only [Except.error.injEq, Prod.mk.injEq] at h
      obtain ⟨he, hr⟩ := h
      subst he
      subst hr
      exact ⟨rfl, rfl⟩

/-- C9 witness: the amended property at a concrete record with caller id 7
and the insert failing with cause "boom". -/
theorem create_resets_id_witness :
    ModelRec.create insFailBoom recWithId7 =
      ModelRec.create insFailBoom { recWithId7 with id := none } ∧
    (insFailBoom { recWithId7 with id := none } = .error "boom" ∧
     ({ recWithId7 with id := none } : ModelRec).id = none) :=
  ⟨(create_resets_id_and_carries_cause insFailBoom recWithId7).1,
   (create_resets_id_and_carries_cause insFailBoom recWithId7).2 "boom"
     { recWithId7 with id := none } rfl⟩

end RecSvc
